import Mathlib

/-
Verification development for the Smart Traffic Violation Pattern Detector
dashboard (Traffic_Violation_Final/main.py and
Traffic_Violation_Final/map_visualization.py).

The pandas dataframes of the source are embedded as a list of column names
together with a list of rows; a cell is a `Value`.  Functions that mutate
their dataframe argument in place (pandas column assignment) are embedded
with explicit state passing: they return the post-call state of the
argument alongside their python return value.  Fallible python code
(exceptions) is embedded with `Except`.
-/

/-- A cell of a dataframe: an integer, a string, a parsed timestamp
(totally ordered by an integer ordinal), a rational (pandas float means),
or a null (NaN / NaT). -/
inductive Value where
  | vInt : Int → Value
  | vStr : String → Value
  | vDate : Int → Value
  | vRat : Rat → Value
  | vNull : Value
deriving DecidableEq, Repr

/-- A pandas dataframe: named columns and a list of rows
(each row a list of cells, positionally aligned with `columns`). -/
structure DataFrame where
  columns : List String
  rows : List (List Value)
deriving DecidableEq, Repr

/-- Read the cell of row `r` in column `c` (given the column list `cols`);
absent columns or short rows read as null. -/
def getCell (cols : List String) (r : List Value) (c : String) : Value :=
  r.getD (cols.indexOf c) Value.vNull

/-- Split a character list on the dash character (helper for date parsing). -/
def splitOnDash : List Char → List (List Char)
  | [] => [[]]
  | c :: cs =>
    if c = '-' then [] :: splitOnDash cs
    else
      match splitOnDash cs with
      | [] => [[c]]
      | p :: ps => (c :: p) :: ps

/-- Read a digit list as a natural number. -/
def digitsToNat (cs : List Char) : Nat :=
  cs.foldl (fun a c => a * 10 + (c.toNat - 48)) 0

/-- Parse a string of the shape YYYY-MM-DD to a date ordinal
(y*10000 + m*100 + d, which is monotone in calendar order);
returns none on anything else.  Embeds the date parsing that
pandas.to_datetime performs on the Date column of the dataset. -/
def parseDateString (s : String) : Option Int :=
  match splitOnDash s.data with
  | [ys, ms, ds] =>
    if ys.length = 4 ∧ ms.length = 2 ∧ ds.length = 2 ∧
        ys.all Char.isDigit ∧ ms.all Char.isDigit ∧ ds.all Char.isDigit then
      let y := digitsToNat ys
      let m := digitsToNat ms
      let d := digitsToNat ds
      if 1 ≤ m ∧ m ≤ 12 ∧ 1 ≤ d ∧ d ≤ 31 then
        some ((y * 10000 + m * 100 + d : Nat) : Int)
      else none
    else none
  | _ => none

/-- pandas.to_datetime(-, errors=coerce) on one cell: timestamps pass
through, parseable strings become timestamps, anything unparseable
becomes NaT (null).  Integers are epoch offsets and coerce to a
timestamp with the same ordinal. -/
def to_datetime_coerce : Value → Value
  | Value.vDate d => Value.vDate d
  | Value.vStr s =>
    match parseDateString s with
    | some d => Value.vDate d
    | none => Value.vNull
  | Value.vInt n => Value.vDate n
  | Value.vRat _ => Value.vNull
  | Value.vNull => Value.vNull

/-- The comparison (series >= start_date) of the source on one cell:
true only for a timestamp at or after the bound; NaT compares false. -/
def dateGe (v : Value) (bound : Int) : Bool :=
  match v with
  | Value.vDate d => bound ≤ d
  | _ => false

/-- The comparison (series <= end_date) of the source on one cell:
true only for a timestamp at or before the bound; NaT compares false. -/
def dateLe (v : Value) (bound : Int) : Bool :=
  match v with
  | Value.vDate d => d ≤ bound
  | _ => false

/-- The in-place column assignment df[c] = pd.to_datetime(df[c], errors=coerce)
of MapVisualizer.filter_dataframe_by_date: every row has its cell in
column `c` replaced by its coerced value. -/
def coerceDateColumn (df : DataFrame) (c : String) : DataFrame :=
  DataFrame.mk df.columns
    (df.rows.map (fun r =>
      r.set (df.columns.indexOf c) (to_datetime_coerce (r.getD (df.columns.indexOf c) Value.vNull))))

/-- MapVisualizer.filter_dataframe_by_date (map_visualization.py lines 242-260).
Returns (post-call state of the caller's df, returned dataframe).
If the date column is absent the input is returned unchanged; otherwise
the date column of the INPUT dataframe is coerced in place and the rows
whose coerced date lies in the inclusive range [start_date, end_date]
are returned. -/
def filter_dataframe_by_date (df : DataFrame) (start_date end_date : Int)
    (date_column : String) : DataFrame × DataFrame :=
  if date_column ∉ df.columns then (df, df)
  else
    (coerceDateColumn df date_column,
     DataFrame.mk df.columns
      ((coerceDateColumn df date_column).rows.filter (fun r =>
        dateGe (getCell df.columns r date_column) start_date
        && dateLe (getCell df.columns r date_column) end_date)))

/-- C1: on a table with rows dated day1, day2, day4 (day1 ≤ day2 ≤ day3 < day4),
filtering with the inclusive range [day1, day3] keeps exactly the day1 and
day2 rows: both bounds are inclusive. -/
theorem filter_by_date_inclusive_range (d1 d2 d3 d4 : Int) (p1 p2 p3 : Value)
    (h12 : d1 ≤ d2) (h23 : d2 ≤ d3) (h34 : d3 < d4) :
    (filter_dataframe_by_date
      (DataFrame.mk ["Date", "Id"]
        [[Value.vDate d1, p1], [Value.vDate d2, p2], [Value.vDate d4, p3]])
      d1 d3 "Date").snd
    = DataFrame.mk ["Date", "Id"]
        [[Value.vDate d1, p1], [Value.vDate d2, p2]] := by
  have hA : d1 ≤ d3 := le_trans h12 h23
  have hB : ¬ (d4 ≤ d3) := not_le.mpr h34
  simp [filter_dataframe_by_date, coerceDateColumn, getCell, to_datetime_coerce,
    dateGe, dateLe, List.indexOf, List.findIdx_cons, List.filter, h12, hA, h23, hB]

/-- Closed instance of filter_by_date_inclusive_range at concrete dates. -/
theorem filter_by_date_inclusive_range_witness :
    (filter_dataframe_by_date
      (DataFrame.mk ["Date", "Id"]
        [[Value.vDate 20240101, Value.vInt 1], [Value.vDate 20240102, Value.vInt 2],
         [Value.vDate 20240104, Value.vInt 3]])
      20240101 20240103 "Date").snd
    = DataFrame.mk ["Date", "Id"]
        [[Value.vDate 20240101, Value.vInt 1], [Value.vDate 20240102, Value.vInt 2]] :=
  filter_by_date_inclusive_range 20240101 20240102 20240103 20240104
    (Value.vInt 1) (Value.vInt 2) (Value.vInt 3)
    (by decide) (by decide) (by decide)

/-- C2: if the named date column is absent, filter_dataframe_by_date returns
the input unchanged (both as the post-call state of the argument and the
returned value), for every requested range, and raises no error. -/
theorem filter_by_date_missing_column (df : DataFrame) (s e : Int) (c : String)
    (h : c ∉ df.columns) :
    filter_dataframe_by_date df s e c = (df, df) := by
  simp [filter_dataframe_by_date, h]

/-- Closed instance of filter_by_date_missing_column. -/
theorem filter_by_date_missing_column_witness :
    filter_dataframe_by_date
      (DataFrame.mk ["Id"] [[Value.vInt 1]]) 0 5 "Date"
    = (DataFrame.mk ["Id"] [[Value.vInt 1]], DataFrame.mk ["Id"] [[Value.vInt 1]]) :=
  filter_by_date_missing_column (DataFrame.mk ["Id"] [[Value.vInt 1]]) 0 5 "Date"
    (by decide)

/-- Setting an index of a list to the value already read there (with any
default) leaves the list unchanged. -/
theorem list_set_getD_self {α : Type} (l : List α) (i : Nat) (d : α) :
    l.set i (l.getD i d) = l := by
  induction l generalizing i with
  | nil => simp
  | cons a t ih =>
    cases i with
    | zero => simp
    | succ n => simpa using ih n

/-- C3 counterexample: filter_dataframe_by_date mutates its input; on a
table whose Date column holds the string 2024-01-01, the post-call state
of the input differs from the input (the string cell was replaced in
place by a parsed timestamp). -/
theorem filter_by_date_mutation_cex :
    (filter_dataframe_by_date
      (DataFrame.mk ["Date"] [[Value.vStr "2024-01-01"]]) 20240101 20240103 "Date").fst
    ≠ DataFrame.mk ["Date"] [[Value.vStr "2024-01-01"]] := by decide

/-- C3 amended: filter_dataframe_by_date coerces the date column of its
input in place, so the input is left unchanged exactly when there is
nothing to coerce: whenever every date cell of the input is a fixed
point of the coercion (in particular an already-parsed timestamp), the
post-call state of the input equals the input.  (When the date column is
absent, C2 already gives the input back unchanged.) -/
theorem filter_by_date_preserves_coerced_input (df : DataFrame) (s e : Int) (c : String)
    (h : ∀ r ∈ df.rows,
      to_datetime_coerce (r.getD (df.columns.indexOf c) Value.vNull)
        = r.getD (df.columns.indexOf c) Value.vNull) :
    (filter_dataframe_by_date df s e c).fst = df := by
  by_cases hc : c ∈ df.columns
  · have hrows : df.rows.map (fun r =>
        r.set (df.columns.indexOf c)
          (to_datetime_coerce (r.getD (df.columns.indexOf c) Value.vNull)))
        = df.rows := by
      have hcong := List.map_congr_left (l := df.rows)
        (f := fun r => r.set (df.columns.indexOf c)
          (to_datetime_coerce (r.getD (df.columns.indexOf c) Value.vNull)))
        (g := id)
        (fun r hr => by
          show r.set (df.columns.indexOf c)
            (to_datetime_coerce (r.getD (df.columns.indexOf c) Value.vNull)) = r
          rw [h r hr]
          exact list_set_getD_self r _ _)
      simpa using hcong
    unfold filter_dataframe_by_date
    rw [if_neg (not_not_intro hc)]
    show coerceDateColumn df c = df
    unfold coerceDateColumn
    rw [hrows]
  · simp [filter_dataframe_by_date, hc]

/-- Closed instance of filter_by_date_preserves_coerced_input: a table
whose Date column already holds parsed timestamps is not changed by the
call. -/
theorem filter_by_date_preserves_coerced_input_witness :
    (filter_dataframe_by_date
      (DataFrame.mk ["Date"] [[Value.vDate 20240101], [Value.vDate 20240105]])
      20240101 20240103 "Date").fst
    = DataFrame.mk ["Date"] [[Value.vDate 20240101], [Value.vDate 20240105]] :=
  filter_by_date_preserves_coerced_input
    (DataFrame.mk ["Date"] [[Value.vDate 20240101], [Value.vDate 20240105]])
    20240101 20240103 "Date" (by decide)

/-- C10: on a table containing the date column, unparseable date values
coerce to null, null satisfies neither inclusive bound, and consequently
every row of the filter result carries a parsed timestamp inside the
requested range - rows whose date value cannot be parsed are excluded
for every range. -/
theorem filter_by_date_excludes_unparseable (df : DataFrame) (s e : Int) (c : String)
    (hc : c ∈ df.columns) :
    (∀ str, parseDateString str = none →
        to_datetime_coerce (Value.vStr str) = Value.vNull)
    ∧ (∀ s0 e0 : Int, dateGe Value.vNull s0 = false ∧ dateLe Value.vNull e0 = false)
    ∧ (∀ r ∈ ((filter_dataframe_by_date df s e c).snd).rows,
        ∃ d : Int, getCell df.columns r c = Value.vDate d ∧ s ≤ d ∧ d ≤ e) := by
  refine ⟨fun str h => by simp [to_datetime_coerce, h], fun s0 e0 => ⟨rfl, rfl⟩, ?_⟩
  intro r hr
  unfold filter_dataframe_by_date at hr
  rw [if_neg (not_not_intro hc)] at hr
  have hp := (List.mem_filter.mp hr).2
  rw [Bool.and_eq_true] at hp
  rcases hp with ⟨hge, hle⟩
  cases hv : getCell df.columns r c with
  | vDate d =>
    rw [hv] at hge hle
    simp only [dateGe, decide_eq_true_eq] at hge
    simp only [dateLe, decide_eq_true_eq] at hle
    exact ⟨d, rfl, hge, hle⟩
  | vInt n => rw [hv] at hge; simp [dateGe] at hge
  | vStr str => rw [hv] at hge; simp [dateGe] at hge
  | vRat q => rw [hv] at hge; simp [dateGe] at hge
  | vNull => rw [hv] at hge; simp [dateGe] at hge

/-- Closed instance of filter_by_date_excludes_unparseable: on a table
with one unparseable date and one in-range timestamp, the surviving row
carries a timestamp within the bounds. -/
theorem filter_by_date_excludes_unparseable_witness :
    ∃ d : Int, getCell ["Date"] [Value.vDate 5] "Date" = Value.vDate d ∧ 0 ≤ d ∧ d ≤ 9 :=
  (filter_by_date_excludes_unparseable
    (DataFrame.mk ["Date"] [[Value.vStr "nodate"], [Value.vDate 5]]) 0 9 "Date"
    (by decide)).2.2 [Value.vDate 5] (by decide)

/-- Rank of a cell constructor, used to order cells of different kinds. -/
def valueRank : Value → Nat
  | Value.vInt _ => 0
  | Value.vStr _ => 1
  | Value.vDate _ => 2
  | Value.vRat _ => 3
  | Value.vNull => 4

/-- Lexicographic order on character lists (the order of string group
keys). -/
def charListLe : List Char → List Char → Bool
  | [], _ => true
  | _ :: _, [] => false
  | a :: as, b :: bs =>
    if a = b then charListLe as bs else decide (a.toNat < b.toNat)

/-- Boolean order on cells: pandas groupby returns its group keys in
ascending order; keys inside one dataframe column are homogeneous, and
cells of the same kind compare by their payload. -/
def valueLeB : Value → Value → Bool
  | Value.vInt a, Value.vInt b => decide (a ≤ b)
  | Value.vStr a, Value.vStr b => charListLe a.data b.data
  | Value.vDate a, Value.vDate b => decide (a ≤ b)
  | Value.vRat a, Value.vRat b => decide (a ≤ b)
  | a, b => decide (valueRank a ≤ valueRank b)

/-- Insert a cell into a (sorted) list of cells, keeping the order. -/
def insertSorted (v : Value) : List Value → List Value
  | [] => [v]
  | w :: ws => if valueLeB v w then v :: w :: ws else w :: insertSorted v ws

/-- Insertion sort of cell lists by valueLeB. -/
def sortValues : List Value → List Value
  | [] => []
  | v :: vs => insertSorted v (sortValues vs)

/-- The distinct non-null values of a cell list in ascending order:
the group keys that pandas groupby produces (null keys are dropped,
keys are unique and sorted). -/
def uniqueKeys (vs : List Value) : List Value :=
  sortValues ((vs.filter (fun v => v ≠ Value.vNull)).dedup)

/-- The cells of column `c`, row by row. -/
def columnValues (df : DataFrame) (c : String) : List Value :=
  df.rows.map (fun r => getCell df.columns r c)

/-- The rows of the group with key `k` under df.groupby(location_column). -/
def groupRows (df : DataFrame) (location_column : String) (k : Value) : List (List Value) :=
  df.rows.filter (fun r => getCell df.columns r location_column = k)

/-- The metric cells of the group with key `k`:
df.groupby(location_column)[metric_column] restricted to that group. -/
def metricValues (df : DataFrame) (location_column metric_column : String) (k : Value) : List Value :=
  (groupRows df location_column k).map (fun r => getCell df.columns r metric_column)

/-- pandas Series.sum over a group: integer cells add up, nulls and
other cells are skipped. -/
def sumMetric (vs : List Value) : Int :=
  vs.foldl (fun a v => match v with | Value.vInt n => a + n | _ => a) 0

/-- Number of integer cells of a group (the denominator of a mean). -/
def countInts (vs : List Value) : Nat :=
  (vs.filter (fun v => match v with | Value.vInt _ => true | _ => false)).length

/-- pandas Series.mean over a group: sum of the integer cells divided by
their number (a float in the source, a rational here). -/
def meanMetric (vs : List Value) : Rat :=
  (sumMetric vs : Rat) / (countInts vs : Rat)

/-- pandas Series.max over a group: the greatest integer cell, null on a
group with no integer cell. -/
def maxMetric (vs : List Value) : Value :=
  vs.foldl (fun a v =>
    match a, v with
    | Value.vNull, Value.vInt n => Value.vInt n
    | Value.vInt m, Value.vInt n => Value.vInt (max m n)
    | a, _ => a) Value.vNull

/-- MapVisualizer.aggregate_by_location (map_visualization.py lines 262-286):
a dispatch over the aggregation modes sum, mean, count, max on one metric
column, grouped by the location column; any other mode takes the final
else branch, which is the same expression as the sum branch. -/
def aggregate_by_location (df : DataFrame) (location_column metric_column aggregation : String) : DataFrame :=
  if aggregation = "sum" then
    DataFrame.mk [location_column, metric_column ++ "_Total"]
      ((uniqueKeys (columnValues df location_column)).map (fun k =>
        [k, Value.vInt (sumMetric (metricValues df location_column metric_column k))]))
  else if aggregation = "mean" then
    DataFrame.mk [location_column, metric_column ++ "_Avg"]
      ((uniqueKeys (columnValues df location_column)).map (fun k =>
        [k, Value.vRat (meanMetric (metricValues df location_column metric_column k))]))
  else if aggregation = "count" then
    DataFrame.mk [location_column, "Count"]
      ((uniqueKeys (columnValues df location_column)).map (fun k =>
        [k, Value.vInt ((groupRows df location_column k).length)]))
  else if aggregation = "max" then
    DataFrame.mk [location_column, metric_column ++ "_Max"]
      ((uniqueKeys (columnValues df location_column)).map (fun k =>
        [k, maxMetric (metricValues df location_column metric_column k)]))
  else
    DataFrame.mk [location_column, metric_column ++ "_Total"]
      ((uniqueKeys (columnValues df location_column)).map (fun k =>
        [k, Value.vInt (sumMetric (metricValues df location_column metric_column k))]))

/-- Inserting into a sorted list is a permutation of consing. -/
theorem perm_insertSorted (v : Value) (l : List Value) :
    List.Perm (insertSorted v l) (v :: l) := by
  induction l with
  | nil => exact List.Perm.refl _
  | cons w ws ih =>
    unfold insertSorted
    by_cases h : valueLeB v w = true
    · rw [if_pos h]
    · rw [if_neg h]
      exact List.Perm.trans (List.Perm.cons w ih) (List.Perm.swap v w ws)

/-- Insertion sort permutes its input. -/
theorem perm_sortValues (l : List Value) : List.Perm (sortValues l) l := by
  induction l with
  | nil => exact List.Perm.refl _
  | cons v vs ih =>
    exact List.Perm.trans (perm_insertSorted v (sortValues vs)) (List.Perm.cons v ih)

/-- The group keys are distinct. -/
theorem nodup_uniqueKeys (vs : List Value) : (uniqueKeys vs).Nodup :=
  (perm_sortValues _).symm.nodup (List.nodup_dedup _)

/-- A cell is a group key exactly when it occurs in the column and is
not null. -/
theorem mem_uniqueKeys (k : Value) (vs : List Value) :
    k ∈ uniqueKeys vs ↔ (k ∈ vs ∧ k ≠ Value.vNull) := by
  unfold uniqueKeys
  rw [(perm_sortValues _).mem_iff, List.mem_dedup, List.mem_filter]
  simp

/-- In a list of rows built by mapping a row constructor over distinct
keys, filtering for one of the keys keeps exactly the row of that key. -/
theorem filter_map_rows (f : Value → List Value)
    (g : ∀ k, (f k).getD 0 Value.vNull = k)
    (keys : List Value) (hnd : keys.Nodup) (k : Value) (hk : k ∈ keys) :
    (keys.map f).filter (fun r => r.getD 0 Value.vNull = k) = [f k] := by
  induction keys with
  | nil => cases hk
  | cons a t ih =>
    rw [List.map_cons, List.filter_cons]
    rcases List.nodup_cons.mp hnd with ⟨ha, hndt⟩
    by_cases hak : a = k
    · subst hak
      rw [if_pos (by rw [g a]; simp)]
      have hrest : (t.map f).filter (fun r => r.getD 0 Value.vNull = a) = [] := by
        rw [List.filter_eq_nil_iff]
        intro r hr
        rcases List.mem_map.mp hr with ⟨b, hb, rfl⟩
        rw [g b]
        simp only [decide_eq_true_eq]
        intro hba
        exact ha (hba ▸ hb)
      rw [hrest]
    · rw [if_neg (by rw [g a]; simp [hak])]
      rcases List.mem_cons.mp hk with h | h
      · exact absurd h.symm hak
      · exact ih hndt h

/-- The concrete table of C4: rows (A, 10), (A, 5), (B, 7) with location
column loc and metric column fine. -/
def c4Table : DataFrame :=
  DataFrame.mk ["loc", "fine"]
    [[Value.vStr "A", Value.vInt 10], [Value.vStr "A", Value.vInt 5],
     [Value.vStr "B", Value.vInt 7]]

/-- C4: aggregate_by_location with mode sum on the table
(A, 10), (A, 5), (B, 7) yields A mapped to 15 and B to 7; mode count
yields A mapped to 2 and B to 1; and in general every location occurring
in the table appears in exactly one result row, paired with the sum of
its metric values under mode sum and with its number of rows under mode
count. -/
theorem aggregate_sum_count_by_location :
    (aggregate_by_location c4Table "loc" "fine" "sum"
      = DataFrame.mk ["loc", "fine_Total"]
          [[Value.vStr "A", Value.vInt 15], [Value.vStr "B", Value.vInt 7]])
    ∧ (aggregate_by_location c4Table "loc" "fine" "count"
      = DataFrame.mk ["loc", "Count"]
          [[Value.vStr "A", Value.vInt 2], [Value.vStr "B", Value.vInt 1]])
    ∧ (∀ (df : DataFrame) (lc mc : String) (k : Value),
        k ∈ columnValues df lc → k ≠ Value.vNull →
          ((aggregate_by_location df lc mc "sum").rows.filter
              (fun r => r.getD 0 Value.vNull = k))
            = [[k, Value.vInt (sumMetric (metricValues df lc mc k))]]
          ∧ ((aggregate_by_location df lc mc "count").rows.filter
              (fun r => r.getD 0 Value.vNull = k))
            = [[k, Value.vInt ((groupRows df lc k).length)]]) := by
  refine ⟨by decide, by decide, ?_⟩
  intro df lc mc k hk hnn
  have hmem : k ∈ uniqueKeys (columnValues df lc) := (mem_uniqueKeys k _).mpr ⟨hk, hnn⟩
  have hnd := nodup_uniqueKeys (columnValues df lc)
  constructor
  · have hred : aggregate_by_location df lc mc "sum"
        = DataFrame.mk [lc, mc ++ "_Total"]
          ((uniqueKeys (columnValues df lc)).map (fun k =>
            [k, Value.vInt (sumMetric (metricValues df lc mc k))])) := by
      simp [aggregate_by_location]
    rw [hred]
    exact filter_map_rows
      (fun k0 => [k0, Value.vInt (sumMetric (metricValues df lc mc k0))])
      (fun k0 => rfl) _ hnd k hmem
  · have hred : aggregate_by_location df lc mc "count"
        = DataFrame.mk [lc, "Count"]
          ((uniqueKeys (columnValues df lc)).map (fun k =>
            [k, Value.vInt ((groupRows df lc k).length)])) := by
      simp [aggregate_by_location]
    rw [hred]
    exact filter_map_rows
      (fun k0 => [k0, Value.vInt ((groupRows df lc k0).length)])
      (fun k0 => rfl) _ hnd k hmem

/-- Closed instance of the general part of aggregate_sum_count_by_location
at the concrete table and location A. -/
theorem aggregate_sum_count_by_location_witness :
    ((aggregate_by_location c4Table "loc" "fine" "sum").rows.filter
        (fun r => r.getD 0 Value.vNull = Value.vStr "A"))
      = [[Value.vStr "A",
          Value.vInt (sumMetric (metricValues c4Table "loc" "fine" (Value.vStr "A")))]]
    ∧ ((aggregate_by_location c4Table "loc" "fine" "count").rows.filter
        (fun r => r.getD 0 Value.vNull = Value.vStr "A"))
      = [[Value.vStr "A",
          Value.vInt ((groupRows c4Table "loc" (Value.vStr "A")).length)]] :=
  aggregate_sum_count_by_location.2.2 c4Table "loc" "fine" (Value.vStr "A")
    (by decide) (by decide)

/-- C5: any aggregation argument other than sum, mean, count, max takes
the final else branch, whose result coincides with the sum mode on the
same inputs; no error is raised. -/
theorem aggregate_unknown_mode_falls_back_to_sum
    (df : DataFrame) (lc mc agg : String)
    (h : agg ∉ ["sum", "mean", "count", "max"]) :
    aggregate_by_location df lc mc agg = aggregate_by_location df lc mc "sum" := by
  simp only [List.mem_cons, List.not_mem_nil, or_false, not_or] at h
  obtain ⟨h1, h2, h3, h4⟩ := h
  simp [aggregate_by_location, h1, h2, h3, h4]

/-- Closed instance of aggregate_unknown_mode_falls_back_to_sum at the
misspelled mode total. -/
theorem aggregate_unknown_mode_falls_back_to_sum_witness :
    aggregate_by_location c4Table "loc" "fine" "total"
      = aggregate_by_location c4Table "loc" "fine" "sum" :=
  aggregate_unknown_mode_falls_back_to_sum c4Table "loc" "fine" "total" (by decide)

/-- C9: the count mode groups by the location column and counts rows
without reading the metric column, so its result is the same for every
metric_column argument (present in the table or not). -/
theorem aggregate_count_ignores_metric_column
    (df : DataFrame) (lc m1 m2 : String) :
    aggregate_by_location df lc m1 "count" = aggregate_by_location df lc m2 "count" := by
  simp [aggregate_by_location]

/-- The ten page renderers that main.py imports from the views package
(views._1_Home.app through views._10_About.app). -/
inductive PageId where
  | home
  | dashboard
  | timeTrendAnalysis
  | environmentAnalysis
  | vehicleAnalysis
  | driverBehaviourAnalysis
  | paymentAnalysis
  | mapVisualisation
  | report
  | about
deriving DecidableEq, Repr

/-- The ten labels of the sidebar radio selector (main.py lines 111-126). -/
def navigationLabels : List String :=
  ["Home", "Dashboard", "Time Trend Analysis", "Environment Analysis",
   "Vehicle Analysis", "Driver Behaviour Analysis", "Payment Analysis",
   "Map Visualisation", "Report", "About"]

/-- The routing if/elif chain of main.py (lines 136-176): the render
invocations (which page function, called with which argument) that one
run performs for the selected label.  No elif matches an unknown label
and there is no else branch, so an unknown label invokes nothing. -/
def routing (page : String) (df : DataFrame) : List (PageId × DataFrame) :=
  if page = "Home" then [(PageId.home, df)]
  else if page = "Dashboard" then [(PageId.dashboard, df)]
  else if page = "Time Trend Analysis" then [(PageId.timeTrendAnalysis, df)]
  else if page = "Environment Analysis" then [(PageId.environmentAnalysis, df)]
  else if page = "Vehicle Analysis" then [(PageId.vehicleAnalysis, df)]
  else if page = "Driver Behaviour Analysis" then [(PageId.driverBehaviourAnalysis, df)]
  else if page = "Payment Analysis" then [(PageId.paymentAnalysis, df)]
  else if page = "Map Visualisation" then [(PageId.mapVisualisation, df)]
  else if page = "Report" then [(PageId.report, df)]
  else if page = "About" then [(PageId.about, df)]
  else []

/-- C7: each of the ten navigation labels invokes exactly the one
corresponding render function, with the loaded table as its only
argument, and no other; a label outside the ten invokes nothing and
raises no error. -/
theorem routing_dispatch (df : DataFrame) :
    routing "Home" df = [(PageId.home, df)]
    ∧ routing "Dashboard" df = [(PageId.dashboard, df)]
    ∧ routing "Time Trend Analysis" df = [(PageId.timeTrendAnalysis, df)]
    ∧ routing "Environment Analysis" df = [(PageId.environmentAnalysis, df)]
    ∧ routing "Vehicle Analysis" df = [(PageId.vehicleAnalysis, df)]
    ∧ routing "Driver Behaviour Analysis" df = [(PageId.driverBehaviourAnalysis, df)]
    ∧ routing "Payment Analysis" df = [(PageId.paymentAnalysis, df)]
    ∧ routing "Map Visualisation" df = [(PageId.mapVisualisation, df)]
    ∧ routing "Report" df = [(PageId.report, df)]
    ∧ routing "About" df = [(PageId.about, df)]
    ∧ (∀ l : String, l ∉ navigationLabels → routing l df = []) := by
  refine ⟨by simp [routing], by simp [routing], by simp [routing], by simp [routing],
    by simp [routing], by simp [routing], by simp [routing], by simp [routing],
    by simp [routing], by simp [routing], ?_⟩
  intro l hl
  simp only [navigationLabels, List.mem_cons, List.not_mem_nil, or_false, not_or] at hl
  obtain ⟨n1, n2, n3, n4, n5, n6, n7, n8, n9, n10⟩ := hl
  simp [routing, n1, n2, n3, n4, n5, n6, n7, n8, n9, n10]

/-- Closed instance of the unmatched-label part of routing_dispatch. -/
theorem routing_dispatch_witness :
    routing "Settings" (DataFrame.mk [] []) = [] :=
  (routing_dispatch (DataFrame.mk [] [])).2.2.2.2.2.2.2.2.2.2 "Settings" (by decide)

/-- Outcome of the two geojson loads that the environment supplies to one
call of load_geojsons: the HTTP fetch of the world dataset and the local
read of india_states.geojson; an error value embeds the python
exception. -/
structure GeoEnv where
  world_fetch : Except String String
  india_file : Except String String
deriving Repr

/-- What one call of load_geojsons produces: the world dataset, the India
dataset if its file loaded (None otherwise), and the warnings surfaced
to the user. -/
structure GeoResult where
  world_geo : String
  india_geo : Option String
  warnings : List String
deriving DecidableEq, Repr

/-- The warning text of map_visualization.py line 48. -/
def indiaWarning : String :=
  "india_states.geojson not found. Download from: https://github.com/udit-001/india-maps-data"

/-- MapVisualizer.load_geojsons (map_visualization.py lines 37-50): the
world fetch is outside any try block, so its failure propagates as an
error; the India file read is wrapped in try/except and a failure
yields None for India plus one warning.  Each source is consulted once
per call: no retry, no alternate source. -/
def load_geojsons (env : GeoEnv) : Except String GeoResult :=
  match env.world_fetch with
  | Except.error e => Except.error e
  | Except.ok world =>
    match env.india_file with
    | Except.ok india => Except.ok (GeoResult.mk world (some india) [])
    | Except.error _ => Except.ok (GeoResult.mk world none [indiaWarning])

/-- C8: when the local India boundary file cannot be loaded,
load_geojsons still returns the world dataset, returns None for the
India dataset, and surfaces exactly one warning (the run consults each
source once, so there is no retry and no alternate source); when the
network fetch of the world dataset fails, the error propagates
unhandled. -/
theorem load_geojsons_degrades (env : GeoEnv) :
    (∀ w err, env.world_fetch = Except.ok w → env.india_file = Except.error err →
      load_geojsons env = Except.ok (GeoResult.mk w none [indiaWarning]))
    ∧ (∀ e, env.world_fetch = Except.error e →
      load_geojsons env = Except.error e) := by
  constructor
  · intro w err hw hi
    simp [load_geojsons, hw, hi]
  · intro e hw
    simp [load_geojsons, hw]

/-- Closed instance of load_geojsons_degrades: missing India file,
successful world fetch. -/
theorem load_geojsons_degrades_witness :
    load_geojsons (GeoEnv.mk (Except.ok "world") (Except.error "FileNotFoundError"))
      = Except.ok (GeoResult.mk "world" none [indiaWarning]) :=
  (load_geojsons_degrades
    (GeoEnv.mk (Except.ok "world") (Except.error "FileNotFoundError"))).1
    "world" "FileNotFoundError" rfl rfl

/-- One text label placed on a figure by add_state_labels: its x and y
position (x is longitude plus offset_x, y is latitude plus offset_y in
the source) and the state name and metric value from which its HTML
text is rendered. -/
structure MapLabel where
  x : Rat
  y : Rat
  state : String
  value : Int
deriving DecidableEq, Repr

/-- A plotly figure: the labels added to it, plus the rest of the figure
(traces, layout, styling), which add_state_labels never touches, kept
opaque. -/
structure Figure where
  base : String
  labels : List MapLabel
deriving DecidableEq, Repr

/-- MapVisualizer.get_state_coordinates (map_visualization.py lines
52-72): the fixed (latitude, longitude) map for the 16 recognized
Indian states, in source order. -/
def get_state_coordinates : List (String × (Rat × Rat)) :=
  [("Karnataka", (12.97, 77.59)),
   ("Punjab", (30.90, 75.85)),
   ("Maharashtra", (19.07, 72.87)),
   ("West Bengal", (22.57, 88.36)),
   ("Tamil Nadu", (13.08, 80.27)),
   ("Delhi", (28.61, 77.23)),
   ("Uttar Pradesh", (26.85, 80.95)),
   ("Gujarat", (23.02, 72.57)),
   ("Rajasthan", (27.59, 75.62)),
   ("Madhya Pradesh", (22.85, 77.99)),
   ("Andhra Pradesh", (15.91, 78.16)),
   ("Telangana", (18.11, 79.01)),
   ("Bihar", (25.59, 85.54)),
   ("Jharkhand", (23.61, 85.28)),
   ("Odisha", (20.95, 85.09)),
   ("Assam", (26.20, 92.94))]

/-- python int() on one cell: an integer passes through, a float
truncates toward zero, anything else raises (none). -/
def intOfCell : Value → Option Int
  | Value.vInt n => some n
  | Value.vRat q => some (q.num / (q.den : Int))
  | _ => none

/-- The for-loop of MapVisualizer.add_state_labels (map_visualization.py
lines 203-222), one row at a time: reading row[Location] raises when
the column is absent; a recognized state appends one label at
(lon + offset_x, lat + offset_y); an unrecognized or non-string
location is skipped silently; int(row.iloc[1]) raises when the second
cell is not numeric. -/
def addStateLabelsLoop (cols : List String) (offset_x offset_y : Rat) :
    Figure → List (List Value) → Except String Figure
  | f, [] => Except.ok f
  | f, r :: rs =>
    if "Location" ∈ cols then
      match getCell cols r "Location" with
      | Value.vStr s =>
        match List.lookup s get_state_coordinates with
        | some (lat, lon) =>
          match intOfCell (r.getD 1 Value.vNull) with
          | some v =>
            addStateLabelsLoop cols offset_x offset_y
              (Figure.mk f.base
                (f.labels ++ [MapLabel.mk (lon + offset_x) (lat + offset_y) s v])) rs
          | none => Except.error "ValueError: int conversion"
        | none => addStateLabelsLoop cols offset_x offset_y f rs
      | _ => addStateLabelsLoop cols offset_x offset_y f rs
    else Except.error "KeyError: Location"

/-- MapVisualizer.add_state_labels (map_visualization.py lines 191-224):
iterate the rows of state_data, appending labels to the figure, and
return the figure. -/
def add_state_labels (fig : Figure) (state_data : DataFrame) (offset_x offset_y : Rat) :
    Except String Figure :=
  addStateLabelsLoop state_data.columns offset_x offset_y fig state_data.rows

/-- The label one row contributes: rows whose Location is a key of the
coordinate map contribute one label at that state's coordinates shifted
by the offsets; every other row contributes none. -/
def rowLabel (cols : List String) (offset_x offset_y : Rat) (r : List Value) : Option MapLabel :=
  match getCell cols r "Location" with
  | Value.vStr s =>
    match List.lookup s get_state_coordinates, intOfCell (r.getD 1 Value.vNull) with
    | some (lat, lon), some v =>
      some (MapLabel.mk (lon + offset_x) (lat + offset_y) s v)
    | _, _ => none
  | _ => none

/-- Well-formedness of one state_data row: when its Location is
recognized, its second cell converts to an int (the documented schema
of state_data: a Location column and a numeric metric column). -/
def rowMetricOk (cols : List String) (r : List Value) : Bool :=
  match getCell cols r "Location" with
  | Value.vStr s =>
    match List.lookup s get_state_coordinates with
    | some _ => (intOfCell (r.getD 1 Value.vNull)).isSome
    | none => true
  | _ => true

/-- C6: on a state_data table with a Location column and a numeric second
column, add_state_labels raises no error and returns the figure with its
other content unchanged and exactly one label appended per row whose
Location is a key of the coordinate map, at that state's coordinates
plus the offsets; rows with unrecognized locations contribute nothing. -/
theorem add_state_labels_spec (sd : DataFrame) (ox oy : Rat)
    (hcol : "Location" ∈ sd.columns)
    (hok : sd.rows.all (rowMetricOk sd.columns) = true) (fig : Figure) :
    add_state_labels fig sd ox oy
      = Except.ok (Figure.mk fig.base
          (fig.labels ++ sd.rows.filterMap (rowLabel sd.columns ox oy))) := by
  unfold add_state_labels
  revert hok
  generalize sd.rows = rows
  revert fig
  induction rows with
  | nil =>
    intro fig _
    simp [addStateLabelsLoop]
  | cons r rs ih =>
    intro fig hall
    rw [List.all_cons, Bool.and_eq_true] at hall
    obtain ⟨hr, hrs⟩ := hall
    unfold addStateLabelsLoop
    rw [if_pos hcol]
    split
    · rename_i s hloc
      split
      · rename_i lat lon hlk
        split
        · rename_i v hic
          rw [ih _ hrs]
          rw [List.getD_eq_getElem?_getD] at hic
          simp [rowLabel, hloc, hlk, hic, List.filterMap_cons, List.append_assoc]
        · rename_i hic
          exfalso
          have hr2 := hr
          unfold rowMetricOk at hr2
          rw [hloc] at hr2
          rw [List.getD_eq_getElem?_getD] at hic
          simp [hlk, hic] at hr2
      · rename_i hlk
        rw [ih fig hrs]
        simp [rowLabel, hloc, hlk, List.filterMap_cons]
    · rename_i x hnostr
      rw [ih fig hrs]
      have hnone : rowLabel sd.columns ox oy r = none := by
        unfold rowLabel
        cases hv : getCell sd.columns r "Location" with
        | vStr s => exact absurd hv (fun h => hnostr s h)
        | vInt n => rfl
        | vDate d => rfl
        | vRat q => rfl
        | vNull => rfl
      simp [List.filterMap_cons, hnone]

/-- The concrete state_data table of the C6 witness: one recognized state
and one unrecognized location. -/
def c6Table : DataFrame :=
  DataFrame.mk ["Location", "Count"]
    [[Value.vStr "Karnataka", Value.vInt 3], [Value.vStr "Atlantis", Value.vInt 1]]

/-- Closed instance of add_state_labels_spec: one recognized and one
unrecognized row, no error. -/
theorem add_state_labels_spec_witness :
    add_state_labels (Figure.mk "fig" []) c6Table 1 2
      = Except.ok (Figure.mk "fig"
          ([] ++ c6Table.rows.filterMap (rowLabel c6Table.columns 1 2))) :=
  add_state_labels_spec c6Table 1 2 (by decide) (by decide) (Figure.mk "fig" [])
